import Mathlib

/-!
Verification of the lesson-builder wizard (`src/app.py`).

The development shallowly embeds the parts of `app.py` that the audited
properties talk about:

* duck-typed slide dictionaries (the values produced by `json.loads`) as a
  `JValue` inductive;
* the three Content Client operations (`get_interesting_facts`,
  `create_advanced_lesson_outline`, `generate_enhanced_slide_content`) as pure
  functions parameterised by the external LLM call (`ApiOutcome`) and by the
  external JSON parser (`loads : String → Option JValue`);
* the Deck Assembler (`create_sophisticated_powerpoint`) over `JValue` records;
* the Narration Client (`generate_enhanced_audio`) parameterised by the
  external HTTP call;
* the Streamlit wizard (`main`) as a state machine: `SessionState`,
  `WizardAction`, `applyAction`, and the step-5 handler `runStep5` which also
  records an event trace (deck attempt, narration calls).

Python exceptions of library calls are modelled as outcome constructors;
exceptions raised by the embedded code itself (`KeyError`, `AttributeError`,
`TypeError` on duck-typed values) are modelled by `Option`/early-exit exactly
where the source raises them.
-/

namespace LessonsBuilder

/-- Values produced by `json.loads` / stored in `st.session_state` slide lists:
Python dicts, lists, strings, ints, bools and None. -/
inductive JValue where
  | str  : String → JValue
  | num  : Int → JValue
  | bool : Bool → JValue
  | null : JValue
  | arr  : List JValue → JValue
  | obj  : List (String × JValue) → JValue

/-- Python truthiness of a JSON-shaped value (`if v:`). -/
def jTruthy : JValue → Bool
  | .str s  => !s.isEmpty
  | .num n  => n != 0
  | .bool b => b
  | .null   => false
  | .arr l  => !l.isEmpty
  | .obj l  => !l.isEmpty

/-- Python `str()` of a JSON-shaped value, as used in f-string interpolation.
Containers are abbreviated; no audited property depends on them. -/
def pyStr : JValue → String
  | .str s      => s
  | .num n      => toString n
  | .bool true  => "True"
  | .bool false => "False"
  | .null       => "None"
  | .arr _      => "[...]"
  | .obj _      => "\x7b...\x7d"

/-- Python `s[:n]` on text: the first `n` characters (code points). -/
def pySlice (s : String) (n : Nat) : String := String.mk (s.data.take n)

/-- Python `s[n:]` on text: drop the first `n` characters. -/
def pyDropFirst (s : String) (n : Nat) : String := String.mk (s.data.drop n)

/-- Python `s[:-n]` on text: all but the last `n` characters (empty if shorter). -/
def pyDropLast (s : String) (n : Nat) : String :=
  String.mk (s.data.take (s.data.length - n))

/-- Python `s.startswith(p)`. -/
def pyStartsWith (s p : String) : Bool := p.data.isPrefixOf s.data

/-- Python `s.endswith(p)`. -/
def pyEndsWith (s p : String) : Bool := p.data.isSuffixOf s.data

/-- Python whitespace test used by `str.strip()`. -/
def isPySpace (c : Char) : Bool :=
  c == ' ' || c == '\t' || c == '\n' || c == '\r' || c.toNat == 11 || c.toNat == 12

/-- Python `s.strip()`. -/
def pyStrip (s : String) : String :=
  String.mk (((s.data.dropWhile isPySpace).reverse.dropWhile isPySpace).reverse)

/-- Outcome of one `client.messages.create` call: the response text, or any
raised exception (auth, network, ...). -/
inductive ApiOutcome where
  | success (text : String)
  | failure

/-! ## Content Client (`EnhancedLessonGenerator`, app.py lines 595-771) -/

/-- Research context block of `get_interesting_facts` (lines 598-600). -/
def facts_research_context (research_data : Option String) : String :=
  match research_data with
  | some c => "Additional research context: " ++ pySlice c 1000
  | none => ""

/-- The prompt built by `get_interesting_facts` (app.py lines 602-616).
The source text is interpolated as `content[:2000]`. -/
def factsPrompt (topic content : String) (research_data : Option String) : String :=
  "Based on the topic \"" ++ topic ++
    "\", the following content, and additional research, find 7-10 fascinating and engaging facts:\n\nContent: " ++
    pySlice content 2000 ++ "\n" ++ facts_research_context research_data ++
    "\n\nFocus on:\n- Surprising statistics and data points\n- Historical anecdotes and stories\n- Real-world applications and impact\n- Fun trivia and lesser-known facts\n- Current relevance and modern connections\n- Technical innovations and breakthroughs\n- Cultural and social significance\n\nFormat as a numbered list with detailed explanations that will captivate students."

/-- Model of `get_interesting_facts` (app.py lines 595-627): submit the
prompt; return the response text, or the literal error string if anything was
raised. -/
def get_interesting_facts (api : String → ApiOutcome) (topic content : String)
    (research_data : Option String) : String :=
  match api (factsPrompt topic content research_data) with
  | .success t => t
  | .failure => "Unable to generate facts due to API error."

/-- Research context block of `create_advanced_lesson_outline` (lines
632-634). -/
def outline_research_context (research_data : Option String) : String :=
  match research_data with
  | some c => "Research insights: " ++ pySlice c 1500
  | none => ""

/-- The prompt built by `create_advanced_lesson_outline` (app.py lines 636-658).
The source material is interpolated as `content[:1500]`; the facts string is
interpolated whole. -/
def outlinePrompt (objectives content facts : String)
    (research_data : Option String) : String :=
  "Create a sophisticated, research-driven lesson outline:\n\nLearning Objectives: " ++
    objectives ++ "\nContent Material: " ++ pySlice content 1500 ++
    "\nInteresting Facts: " ++ facts ++ "\n" ++
    outline_research_context research_data ++
    "\n\nStructure the lesson with:\n1. **Hook/Introduction** (5-8 minutes) - Engaging opener\n2. **Historical Foundation** (10-15 minutes) - Background and context\n3. **Core Concepts** (15-20 minutes) - Main content with examples\n4. **Modern Relevance** (8-12 minutes) - Current applications\n5. **Interactive Exploration** (10-15 minutes) - Activities and discussion\n6. **Synthesis & Reflection** (5-10 minutes) - Wrap-up and assessment\n\nFor each section, include:\n- Key talking points\n- Suggested activities or interactions\n- Visual aids needed\n- Transition strategies\n- Assessment opportunities\n\nMake this outline comprehensive and engaging for modern learners."

/-- Model of `create_advanced_lesson_outline` (app.py lines 629-669). -/
def create_advanced_lesson_outline (api : String → ApiOutcome)
    (objectives content facts : String) (research_data : Option String) : String :=
  match api (outlinePrompt objectives content facts research_data) with
  | .success t => t
  | .failure => "Unable to generate lesson outline due to API error."

/-- Research context block of `generate_enhanced_slide_content` (lines
674-676). -/
def slides_research_context (research_data : Option String) : String :=
  match research_data with
  | some c => "Research insights: " ++ pySlice c 1000
  | none => ""

/-- The fixed instruction block ending the slide prompt (app.py lines
684-707); the doubled braces of the f-string render as literal braces. -/
def slidesPromptTail : String :=
  "\n\nFor each slide, provide:\n1. Slide title (engaging and descriptive)\n2. Subtitle (optional, for context)\n3. Key bullet points (3-4 impactful points)\n4. Speaker notes (detailed, 3-4 sentences)\n5. Image description (specific visual suggestions)\n6. Layout style (title_slide, content_image, image_focus, split_content, full_image)\n7. Design notes (specific styling suggestions)\n\nReturn ONLY valid JSON in this exact format:\n[\n    \x7b\x7b\n        \"slide_number\": 1,\n        \"title\": \"Compelling Slide Title\",\n        \"subtitle\": \"Optional descriptive subtitle\",\n        \"content\": [\"Impactful point 1\", \"Engaging point 2\", \"Memorable point 3\"],\n        \"speaker_notes\": \"Detailed explanation with context and examples...\",\n        \"image_description\": \"Specific, detailed image suggestion\",\n        \"layout_style\": \"title_slide\",\n        \"design_notes\": \"Specific visual design guidance\"\n    \x7d\x7d\n]\n\nMake slides visually engaging and content-rich."

/-- The prompt built by `generate_enhanced_slide_content` (app.py lines
678-707). The outline and the objectives are interpolated whole. -/
def slidesPrompt (outline objectives : String) (research_data : Option String)
    (slide_count : Nat) : String :=
  "Create content for " ++ toString slide_count ++
    " sophisticated presentation slides:\n\nLesson Outline: " ++ outline ++
    "\nObjectives: " ++ objectives ++ "\n" ++
    slides_research_context research_data ++ slidesPromptTail

/-- app.py lines 718-722, comment "Remove any markdown formatting":
`if content.startswith("json"): content = content[7:]` and
`if content.endswith(""): content = content[:-3]`.  Note `endswith("")` is
true of every Python string, so the last 3 characters are always dropped. -/
def stripMarkdown (content : String) : String :=
  let c := if pyStartsWith content "json" then pyDropFirst content 7 else content
  if pyEndsWith c "" then pyDropLast c 3 else c

/-- One hardcoded fallback slide dictionary
(`_get_enhanced_fallback_slides`, app.py lines 735-756 and 760-769). -/
def mkFallbackSlide (n : Int) (title subtitle : String) (content : List String)
    (notes imgdesc layout design : String) : JValue :=
  .obj [("slide_number", .num n), ("title", .str title),
        ("subtitle", .str subtitle), ("content", .arr (content.map .str)),
        ("speaker_notes", .str notes), ("image_description", .str imgdesc),
        ("layout_style", .str layout), ("design_notes", .str design)]

/-- Fallback slide 1 (app.py lines 736-745). -/
def fallbackSlide1 : JValue :=
  mkFallbackSlide 1 "Introduction & Overview" "Setting the foundation"
    ["Welcome and context", "Learning objectives", "Journey ahead"]
    "Welcome students and establish the learning context. Clearly outline what they will discover and why it matters."
    "Engaging hero image representing the topic" "title_slide"
    "Bold, welcoming design with strong visual impact"

/-- Fallback slide 2 (app.py lines 746-755). -/
def fallbackSlide2 : JValue :=
  mkFallbackSlide 2 "Historical Foundation" "Understanding the origins"
    ["Origins and background", "Key historical moments", "Evolution over time"]
    "Provide essential historical context that helps students understand how we arrived at current understanding."
    "Historical photograph or timeline visualization" "content_image"
    "Balanced layout with historical imagery"

/-- Fallback slide `i` for `i ∈ range(3, count+1)` (app.py lines 759-769). -/
def fallbackConceptSlide (i : Nat) : JValue :=
  mkFallbackSlide (Int.ofNat i) ("Key Concept " ++ toString (i - 1))
    "Building understanding"
    ["Important aspect " ++ toString (i - 1), "Supporting details",
     "Real-world connections"]
    "Explore this key concept with examples and connections to student experience."
    ("Relevant illustration for concept " ++ toString (i - 1)) "content_image"
    "Clear, focused design emphasizing key points"

/-- Model of `_get_enhanced_fallback_slides` (app.py lines 733-771): the two hardcoded
slides, extended by concept slides `3..count`, truncated to `count` items. -/
def get_enhanced_fallback_slides (count : Nat) : List JValue :=
  (([fallbackSlide1, fallbackSlide2] ++
      (List.range' 3 (count - 2)).map fallbackConceptSlide).take count)

/-- Model of `generate_enhanced_slide_content` (app.py lines 671-731), parameterised by
the external LLM call and the external JSON parser (`json.loads`, partial:
`none` models `json.JSONDecodeError`).  A raised exception or a parse failure
yields the fallback sequence; a successfully parsed value is returned as-is
(there is no field validation in the source). -/
def generate_enhanced_slide_content (api : String → ApiOutcome)
    (loads : String → Option JValue) (outline objectives : String)
    (research_data : Option String) (slide_count : Nat) : JValue :=
  match api (slidesPrompt outline objectives research_data slide_count) with
  | .failure => .arr (get_enhanced_fallback_slides slide_count)
  | .success text =>
    let content := stripMarkdown (pyStrip text)
    match loads content with
    | none => .arr (get_enhanced_fallback_slides slide_count)
    | some v => v

/-! ## Deck Assembler (`create_sophisticated_powerpoint`, app.py lines 858-926) -/

/-- One slide of the produced deck: the chosen layout (0 = title layout,
1 = content layout), the title text, and the body paragraphs in order. -/
structure DeckSlide where
  layoutIdx : Nat
  title : String
  paragraphs : List String

/-- The produced binary artifact, abstracted to its slide sequence. -/
structure Deck where
  slides : List DeckSlide

/-- Python iteration over a duck-typed `content` value
(the point loop over the content value): lists yield their elements,
strings their characters, dicts their keys; numbers/None/bools raise
`TypeError` (`none`). -/
def iterElems : JValue → Option (List JValue)
  | .arr l => some l
  | .str s => some (s.data.map (fun c => JValue.str (String.mk [c])))
  | .obj kvs => some (kvs.map (fun kv => JValue.str kv.1))
  | _ => none

/-- The body paragraphs added by the point loop (app.py lines 905-909):
`if point and isinstance(point, str): p.text = str(point)` — only non-empty
strings are added, everything else is silently skipped. -/
def contentPointTexts (pts : List JValue) : List String :=
  pts.filterMap fun p =>
    match p with
    | JValue.str s => if s.isEmpty then none else some s
    | _ => none

/-- Filling one already-added slide from a dict record (app.py lines 870-909).
An exception while filling (a non-string `title`/`subtitle`, a non-iterable
`content`) aborts the fill at that point — the per-slide `except` catches it —
but the slide itself, added earlier, stays in the deck partially filled. -/
def fillSlide (kvs : List (String × JValue)) : DeckSlide :=
  let layout_style := (List.lookup "layout_style" kvs).getD (JValue.str "content_image")
  let isTitleSlide := match layout_style with
    | JValue.str s => s == "title_slide"
    | _ => false
  let layoutIdx := if isTitleSlide then 0 else 1
  let base : DeckSlide := ⟨layoutIdx, "", []⟩
  match (List.lookup "title" kvs).getD (JValue.str "") with
  | JValue.str t =>
    let s1 : DeckSlide := { base with title := t }
    if isTitleSlide then
      -- lines 884-887: subtitle placeholder of the title layout
      match (List.lookup "subtitle" kvs).getD
          (JValue.str "AI-Generated Educational Content") with
      | JValue.str sub => { s1 with paragraphs := [sub] }
      | _ => s1
    else
      -- lines 890-909: optional subtitle paragraph, then content points
      let afterSub : Option DeckSlide :=
        match List.lookup "subtitle" kvs with
        | some v =>
          if jTruthy v then
            match v with
            | JValue.str sub => some { s1 with paragraphs := [sub] }
            | _ => none     -- assigning a non-string subtitle raises
          else some s1
        | none => some s1
      match afterSub with
      | none => s1
      | some s2 =>
        match iterElems ((List.lookup "content" kvs).getD (JValue.arr [])) with
        | none => s2        -- iterating a non-iterable raises
        | some pts => { s2 with paragraphs := s2.paragraphs ++ contentPointTexts pts }
  | _ => base               -- `slide.shapes.title.text = ...` raises

/-- The slide loop of `create_sophisticated_powerpoint` (app.py lines
868-916).  A dict record always contributes exactly one slide: the slide is
added before filling, and if filling raises, the warning in the per-slide
handler (line 915) succeeds on a dict and the loop continues.  A non-dict
record raises `AttributeError` at its first `.get` (line 870); the per-slide
handler catches it, but the warning f-string itself calls `.get` on the same
non-dict and raises again inside the handler, so the exception escapes the
loop — modelled as `none`. -/
def addSlides : List JValue → Option (List DeckSlide)
  | [] => some []
  | rec :: rest =>
    match rec with
    | .obj kvs => (addSlides rest).map (fun tail => fillSlide kvs :: tail)
    | _ => none

/-- Model of `create_sophisticated_powerpoint` (app.py lines 858-926).
Returns `none` when the input is empty or not list-shaped (line 861), and also
when any record is not a dict: the exception re-raised inside the per-slide
handler reaches the function-level handler (line 924), which returns None.
Note the `lesson_title` parameter is never used by the source body: no
separate title slide is added. -/
def create_sophisticated_powerpoint (slides_data : JValue)
    (lesson_title : String) (theme : String) : Option Deck :=
  match slides_data with
  | .arr [] => none
  | .arr l =>
    match addSlides l with
    | some slides => some ⟨slides⟩
    | none => none
  | _ => none

/-! ## Narration Client (`generate_enhanced_audio`, app.py lines 928-958) -/

/-- Raw audio bytes. -/
abbrev AudioBytes := List Nat

/-- The JSON payload posted to the speech endpoint (app.py lines 932-947). -/
structure TtsRequest where
  url : String
  text : String
  model_id : String
  stability : ℚ
  similarity_boost : ℚ

/-- Outcome of the `requests.post` call: a 200 response with a body, a non-200
status, or a raised exception. -/
inductive TtsOutcome where
  | ok (bytes : AudioBytes)
  | httpError (code : Nat)
  | exn

/-- The request built by `generate_enhanced_audio`: the input text is placed in
the payload unmodified. -/
def buildTtsRequest (text voice_id : String) (stability similarity : ℚ) : TtsRequest :=
  { url := "https://api.elevenlabs.io/v1/text-to-speech/" ++ voice_id
  , text := text
  , model_id := "eleven_monolingual_v1"
  , stability := stability
  , similarity_boost := similarity }

/-- Model of `generate_enhanced_audio` (app.py lines 928-958): post the request; a 200
response yields its bytes, a non-200 status or an exception yields no audio
(`None`), never a raised exception. -/
def generate_enhanced_audio (tts : TtsRequest → TtsOutcome) (text : String)
    (voice_id : String) (stability similarity : ℚ) : Option AudioBytes :=
  match tts (buildTtsRequest text voice_id stability similarity) with
  | .ok b => some b
  | .httpError _ => none
  | .exn => none

/-! ## Wizard Controller (`main`, app.py lines 1248-2083) -/

/-- The `st.session_state.lesson_data` dictionary (populated at step 1,
app.py lines 1451-1462; `outline` and `slides` added at step 2, lines
1593-1594).  `research_data` is abstracted to its `content` text. -/
structure LessonData where
  title : String
  subject : String
  grade_level : String
  duration : Nat
  objectives : String
  content : String
  facts : String
  research_data : Option String
  auto_research : Bool
  research_depth : String
  outline : Option String
  slides : Option JValue

/-- The initially empty `lesson_data` dictionary (app.py line 522). -/
def initLesson : LessonData :=
  { title := "", subject := "", grade_level := "", duration := 0,
    objectives := "", content := "", facts := "", research_data := none,
    auto_research := false, research_depth := "", outline := none,
    slides := none }

/-- The Streamlit session state relevant to the wizard (app.py lines 520-536
plus the keys written at step 5). `slide_count`, `include_pauses` and
`voice_style` stand for the advanced-features entries of those names with
their defaults 8, True and Professional. -/
structure SessionState where
  current_step : Nat
  slides_approved : Bool
  selected_theme : String
  lesson : LessonData
  pptx_buffer : Option Deck
  audio_files : List (String × AudioBytes)
  slide_count : Nat
  include_pauses : Bool
  voice_style : String
  generation_history : Nat

/-- Session-state initialization (app.py lines 520-536) with the
`advanced_features` defaults used by `main`. -/
def initState : SessionState :=
  { current_step := 1, slides_approved := false, selected_theme := "minimalist",
    lesson := initLesson, pptx_buffer := none, audio_files := [],
    slide_count := 8, include_pauses := true, voice_style := "Professional",
    generation_history := 0 }

/-- The external collaborators of one interaction: the LLM call, the JSON
parser and the speech-synthesis call. -/
structure Env where
  api : String → ApiOutcome
  loads : String → Option JValue
  tts : TtsRequest → TtsOutcome

/-- The `voice_settings` table (app.py lines 1794-1799) and its lookup with
the Professional default (line 1802). -/
def voiceSettings (style : String) : ℚ × ℚ :=
  (List.lookup style
      [("Professional", ((0.7 : ℚ), (0.8 : ℚ))),
       ("Conversational", ((0.5 : ℚ), (0.6 : ℚ))),
       ("Energetic", ((0.4 : ℚ), (0.7 : ℚ))),
       ("Calm", ((0.8 : ℚ), (0.9 : ℚ)))]).getD ((0.7 : ℚ), (0.8 : ℚ))

/-- Smart-pause insertion (app.py lines 1816-1819). -/
def addPauses (s : String) : String :=
  ((s.replace ". " ". ... ").replace "! " "! ... ").replace "? " "? ... "

/-- The default speaker-notes title text,
the title value (or the Untitled default) rendered into the f-string default
of line 1813. -/
def defaultTitleStr (kvs : List (String × JValue)) : String :=
  match List.lookup "title" kvs with
  | some (JValue.str t) => t
  | some v => pyStr v
  | none => "Untitled"

/-- Speaker-notes preparation for slide `i` (app.py lines 1813-1819):
a lookup of speaker_notes falling back to a default built from the slide
index and title, then pause
insertion when enabled.  `none` models the per-slide exception raised by
`.replace` on a non-string value (caught at line 1829, so the slide is
skipped). A present non-string value with pauses disabled is serialised into
the payload as-is (modelled through `pyStr`). -/
def preparedSpeakerNotes (includePauses : Bool) (i : Nat)
    (kvs : List (String × JValue)) : Option String :=
  match List.lookup "speaker_notes" kvs with
  | some (JValue.str s) => some (if includePauses then addPauses s else s)
  | some v => if includePauses then none else some (pyStr v)
  | none =>
    let d := "This is slide " ++ toString (i + 1) ++ ": " ++ defaultTitleStr kvs
    some (if includePauses then addPauses d else d)

/-- Python zero-padded two-digit formatting (format spec 02d). -/
def twoDigit (n : Nat) : String :=
  if n < 10 then "0" ++ toString n else toString n

/-- The audio file name built at app.py line 1828 from the slide index and
the first 20 characters of the underscore-joined title (default untitled).
`none` models the exception raised by `.replace` on a non-string title
(caught at line 1829). -/
def audioFileName (i : Nat) (kvs : List (String × JValue)) : Option String :=
  match List.lookup "title" kvs with
  | some (JValue.str t) =>
    some ("slide_" ++ twoDigit (i + 1) ++ "_" ++ pySlice (t.replace " " "_") 20 ++ ".mp3")
  | some _ => none
  | none => some ("slide_" ++ twoDigit (i + 1) ++ "_untitled.mp3")

/-- The per-slide narration loop of step 5 (app.py lines 1804-1831), returning
the list of slide indices submitted to the speech endpoint (in order) and the
collected audio files — `none` when an uncaught exception aborts the handler
(a non-dict element, or a missing title key hit by the subscript access in
the status f-string at line 1808, which is outside the `try`). -/
def step5Loop (tts : TtsRequest → TtsOutcome) (includePauses : Bool)
    (stability similarity : ℚ) :
    List JValue → Nat → List Nat × Option (List (String × AudioBytes))
  | [], _ => ([], some [])
  | slide :: rest, i =>
    match slide with
    | JValue.obj kvs =>
      match List.lookup "title" kvs with
      | none => ([], none)
      | some _ =>
        match preparedSpeakerNotes includePauses i kvs with
        | none =>
          -- exception inside the try before the tts call: warn and continue
          step5Loop tts includePauses stability similarity rest (i + 1)
        | some notes =>
          let audio := generate_enhanced_audio tts notes "21m00Tcm4TlvDq8ikWAM"
            stability similarity
          let r := step5Loop tts includePauses stability similarity rest (i + 1)
          (i :: r.1,
            match r.2 with
            | none => none
            | some tail =>
              match audio with
              | some b =>
                if b.isEmpty then some tail   -- `if audio_content:` is falsy
                else
                  match audioFileName i kvs with
                  | some name => some ((name, b) :: tail)
                  | none => some tail         -- exception in append, caught
              | none => some tail)
    | _ => ([], none)

/-- Events observable in the step-5 handler, in order: the deck-assembly
attempt, and one narration call per submitted slide index. -/
inductive Step5Event where
  | deckAttempt
  | narrationCall (i : Nat)
deriving DecidableEq

/-- The step-5 handler body (app.py lines 1744-1870): refuse unless
`slides_approved`; build the deck; only if a deck was produced, run the
narration loop; then store the deck and the audio files and advance to step 6.
An uncaught exception in the loop leaves the state unchanged (the stores at
lines 1843-1844 never run). -/
def runStep5 (env : Env) (st : SessionState) : SessionState × List Step5Event :=
  if st.slides_approved = false then (st, [])
  else
    match st.lesson.slides with
    | none => (st, [])    -- reading the slides key raises KeyError before the call
    | some slides =>
      match create_sophisticated_powerpoint slides st.lesson.title
          st.selected_theme with
      | none => (st, [Step5Event.deckAttempt])
      | some d =>
        match slides with
        | JValue.arr l =>
          let settings := voiceSettings st.voice_style
          let r := step5Loop env.tts st.include_pauses settings.1 settings.2 l 0
          (match r.2 with
           | none => st
           | some files =>
             { st with pptx_buffer := some d, audio_files := files,
                       generation_history := st.generation_history + 1,
                       current_step := 6 },
           Step5Event.deckAttempt :: r.1.map Step5Event.narrationCall)
        | _ => (st, [Step5Event.deckAttempt])  -- unreachable: a deck implies a list

/-- The user-driven transitions of the wizard.  Each constructor carries the
data the corresponding Streamlit widget supplies; external call results come
from `Env`. -/
inductive WizardAction where
  | submitSetup (title subject grade : String) (duration : Nat)
      (objectives content : String) (research : Option String)
  | backToSetup
  | reResearch (research : Option String)
  | newFacts
  | createOutline
  | backToAnalysis
  | regenerateSlides
  | approveAndStyle
  | backToReview
  | selectTheme (key : String)
  | generateMaterials
  | runGeneration
  | createNewLesson
deriving DecidableEq

/-- The step-4 render guard (app.py lines 1705-1707): theme selection is
refused unless `slides_approved`. -/
def step4GuardPasses (st : SessionState) : Bool := st.slides_approved

/-- The step-5 render guard (app.py lines 1750-1752). -/
def step5GuardPasses (st : SessionState) : Bool := st.slides_approved

/-- One wizard transition.  Every handler in the source sits under an
`elif st.session_state.current_step == k:` branch, so each action is guarded
by its step; at step 4 the buttons are only rendered when the approval guard
passed (the early `return` at line 1707). -/
def applyAction (env : Env) (st : SessionState) (a : WizardAction) : SessionState :=
  match a with
  | .submitSetup ti su gr du ob co rd =>
    -- app.py lines 1435-1464; button shown only when title, objectives and a
    -- content source are present
    if st.current_step = 1 ∧ ti ≠ "" ∧ ob ≠ "" then
      { st with
        current_step := 2
        lesson := { title := ti, subject := su, grade_level := gr,
                    duration := du, objectives := ob, content := co,
                    facts := get_interesting_facts env.api ti co rd,
                    research_data := rd, auto_research := rd.isSome,
                    research_depth := st.lesson.research_depth,
                    outline := none, slides := none } }
    else st
  | .backToSetup =>    -- lines 1551-1553
    if st.current_step = 2 then { st with current_step := 1 } else st
  | .reResearch rd =>  -- lines 1556-1560
    if st.current_step = 2 then
      { st with lesson := { st.lesson with research_data := rd } }
    else st
  | .newFacts =>       -- lines 1563-1571
    if st.current_step = 2 then
      { st with lesson := { st.lesson with
          facts := get_interesting_facts env.api st.lesson.title
            st.lesson.content st.lesson.research_data } }
    else st
  | .createOutline =>  -- lines 1574-1596
    if st.current_step = 2 then
      let o := create_advanced_lesson_outline env.api st.lesson.objectives
        st.lesson.content st.lesson.facts st.lesson.research_data
      let s := generate_enhanced_slide_content env.api env.loads o
        st.lesson.objectives st.lesson.research_data st.slide_count
      { st with
        current_step := 3
        lesson := { st.lesson with outline := some o, slides := some s } }
    else st
  | .backToAnalysis => -- lines 1673-1675
    if st.current_step = 3 then { st with current_step := 2 } else st
  | .regenerateSlides => -- lines 1678-1688
    if st.current_step = 3 then
      match st.lesson.outline with
      | none => st     -- reading the outline key raises before any assignment
      | some o =>
        { st with lesson := { st.lesson with
            slides := some (generate_enhanced_slide_content env.api env.loads o
              st.lesson.objectives st.lesson.research_data st.slide_count) } }
    else st
  | .approveAndStyle => -- lines 1695-1698
    if st.current_step = 3 then
      { st with slides_approved := true, current_step := 4 }
    else st
  | .backToReview =>   -- lines 1718-1720
    if st.current_step = 4 ∧ step4GuardPasses st then
      { st with current_step := 3 }
    else st
  | .selectTheme key => -- lines 1029-1031
    if st.current_step = 4 ∧ step4GuardPasses st then
      { st with selected_theme := key }
    else st
  | .generateMaterials => -- lines 1739-1741
    if st.current_step = 4 ∧ step4GuardPasses st then
      { st with current_step := 5 }
    else st
  | .runGeneration =>  -- the step-5 body runs when step 5 renders
    if st.current_step = 5 then (runStep5 env st).1 else st
  | .createNewLesson => -- lines 2048-2055: keep history and advanced features
    if st.current_step = 6 then
      { initState with generation_history := st.generation_history,
                       slide_count := st.slide_count,
                       include_pauses := st.include_pauses,
                       voice_style := st.voice_style }
    else st

/-! ## Spec-side predicates

These follow the spec's words (not the source, which performs no such
validation) and are used to compare the code's behaviour against the claims. -/

/-- The five required fields of a SlideRecord named by the spec
(`{ordinal, title, bullet points, narration text, image hint}`). -/
def requiredSlideFields : List String :=
  ["slide_number", "title", "content", "speaker_notes", "image_description"]

/-- Modelled from the spec: "every object carries all five required fields" —
the object-shaped check a validating parser would run. -/
def specSlideFieldsOk (v : JValue) : Bool :=
  match v with
  | .obj kvs => requiredSlideFields.all fun k => (List.lookup k kvs).isSome
  | _ => false

/-- Modelled from the spec: a fully well-formed SlideRecord object (all five
required fields present with their documented shapes). -/
def specWellFormedSlide (v : JValue) : Bool :=
  match v with
  | .obj kvs =>
    (match List.lookup "slide_number" kvs with | some (.num _) => true | _ => false) &&
    (match List.lookup "title" kvs with | some (.str _) => true | _ => false) &&
    (match List.lookup "content" kvs with | some (.arr _) => true | _ => false) &&
    (match List.lookup "speaker_notes" kvs with | some (.str _) => true | _ => false) &&
    (match List.lookup "image_description" kvs with | some (.str _) => true | _ => false)
  | _ => false

/-- A dict-shaped element of `slides_data`. -/
def isObjRecord (v : JValue) : Bool :=
  match v with
  | .obj _ => true
  | _ => false

/-- A list-shaped `slides_data` value (`isinstance(slides_data, list)`). -/
def isListShaped (v : JValue) : Bool :=
  match v with
  | .arr _ => true
  | _ => false

/-- A slide element the step-5 narration loop handles without an uncaught
exception: a dict with a string `title` and a `speaker_notes` that is either
absent or a string. -/
def wellBehavedSlide (v : JValue) : Bool :=
  match v with
  | .obj kvs =>
    (match List.lookup "title" kvs with | some (.str _) => true | _ => false) &&
    (match List.lookup "speaker_notes" kvs with
     | none => true | some (.str _) => true | _ => false)
  | _ => false

/-! ## C8: the facts operation never raises and yields text or an error string -/

/-- C8: for every valid LessonRequest, the facts operation returns either the
generated text or the fixed literal error string — the `except` branch at
app.py lines 625-627 converts every raised exception into that string, which
is non-empty, so step 1 always completes with a FactSet. -/
theorem C8_facts_total (api : String → ApiOutcome) (topic content : String)
    (research_data : Option String) :
    (∀ t, api (factsPrompt topic content research_data) = ApiOutcome.success t →
      get_interesting_facts api topic content research_data = t) ∧
    (api (factsPrompt topic content research_data) = ApiOutcome.failure →
      get_interesting_facts api topic content research_data =
        "Unable to generate facts due to API error.") ∧
    ("Unable to generate facts due to API error." ≠ "") ∧
    (∀ t, t ≠ "" → api (factsPrompt topic content research_data) = ApiOutcome.success t →
      get_interesting_facts api topic content research_data ≠ "") := by
  refine ⟨?_, ?_, by decide, ?_⟩
  · intro t h
    simp [get_interesting_facts, h]
  · intro h
    simp [get_interesting_facts, h]
  · intro t ht h
    simp [get_interesting_facts, h, ht]

/-- Witness for C8 at a concrete API behaviour: a succeeding call returns its
text, a failing call returns the literal error string. -/
theorem C8_facts_total_witness :
    get_interesting_facts (fun _ => ApiOutcome.success "Ten facts.") "Energy" "src" none
      = "Ten facts." ∧
    get_interesting_facts (fun _ => ApiOutcome.failure) "Energy" "src" none
      = "Unable to generate facts due to API error." :=
  ⟨(C8_facts_total (fun _ => ApiOutcome.success "Ten facts.") "Energy" "src" none).1
      "Ten facts." rfl,
   (C8_facts_total (fun _ => ApiOutcome.failure) "Energy" "src" none).2.1 rfl⟩

/-! ## C9: regenerating slides replaces only the slide sequence -/

/-- C9: the step-3 "Regenerate Slides" action stores a freshly generated slide
sequence (computed from the stored outline, objectives, research data and
slide count, independently of the previous slides) and changes nothing else in
the session: outline, all other lesson fields, the step, the approval flag,
the theme and the stored artifacts are untouched (app.py lines 1678-1688). -/
theorem C9_regenerate_replaces_only_slides (env : Env) (st : SessionState)
    (o : String) (hstep : st.current_step = 3) (hout : st.lesson.outline = some o) :
    let st' := applyAction env st .regenerateSlides
    st'.lesson.slides = some (generate_enhanced_slide_content env.api env.loads o
      st.lesson.objectives st.lesson.research_data st.slide_count) ∧
    st'.lesson.outline = st.lesson.outline ∧
    st'.lesson.title = st.lesson.title ∧
    st'.lesson.subject = st.lesson.subject ∧
    st'.lesson.grade_level = st.lesson.grade_level ∧
    st'.lesson.duration = st.lesson.duration ∧
    st'.lesson.objectives = st.lesson.objectives ∧
    st'.lesson.content = st.lesson.content ∧
    st'.lesson.facts = st.lesson.facts ∧
    st'.lesson.research_data = st.lesson.research_data ∧
    st'.current_step = st.current_step ∧
    st'.slides_approved = st.slides_approved ∧
    st'.selected_theme = st.selected_theme ∧
    st'.pptx_buffer = st.pptx_buffer ∧
    st'.audio_files = st.audio_files ∧
    st'.slide_count = st.slide_count := by
  simp [applyAction, hstep, hout]

/-- Witness for C9: a concrete step-3 session in which regeneration swaps in
the fallback sequence (the env's API always fails) and leaves the outline and
every other component unchanged. -/
theorem C9_regenerate_replaces_only_slides_witness :
    let env : Env := ⟨fun _ => ApiOutcome.failure, fun _ => none, fun _ => TtsOutcome.exn⟩
    let st : SessionState :=
      { initState with
        current_step := 3
        lesson := { initLesson with
                    outline := some "An outline"
                    slides := some (JValue.str "old slides") } }
    let st' := applyAction env st .regenerateSlides
    st'.lesson.slides = some (JValue.arr (get_enhanced_fallback_slides 8)) ∧
    st'.lesson.outline = some "An outline" ∧
    st'.current_step = 3 := by
  have h := C9_regenerate_replaces_only_slides
    ⟨fun _ => ApiOutcome.failure, fun _ => none, fun _ => TtsOutcome.exn⟩
    { initState with
      current_step := 3
      lesson := { initLesson with
                  outline := some "An outline"
                  slides := some (JValue.str "old slides") } }
    "An outline" rfl rfl
  exact ⟨h.1, h.2.1, h.2.2.2.2.2.2.2.2.2.2.1⟩

/-! ## Flag bookkeeping helpers -/

/-- An environment in which every external call fails: the LLM raises, the
JSON parser rejects, the speech call raises. -/
def envFail : Env :=
  ⟨fun _ => ApiOutcome.failure, fun _ => none, fun _ => TtsOutcome.exn⟩

theorem runStep5_fst_slides_approved (env : Env) (st : SessionState) :
    (runStep5 env st).1.slides_approved = st.slides_approved := by
  unfold runStep5
  split
  · rfl
  · split
    · rfl
    · split
      · rfl
      · split
        · dsimp only
          split
          · rfl
          · rfl
        · rfl

/-- How any action can change `slides_approved`: it is preserved, or set to
`true` by "Approve & Style", or the whole session is reset by
"Create New Lesson". -/
theorem applyAction_slides_approved_cases (env : Env) (st : SessionState)
    (a : WizardAction) :
    (applyAction env st a).slides_approved = st.slides_approved ∨
    a = WizardAction.approveAndStyle ∨ a = WizardAction.createNewLesson := by
  cases a with
  | approveAndStyle => exact Or.inr (Or.inl rfl)
  | createNewLesson => exact Or.inr (Or.inr rfl)
  | runGeneration =>
    left
    simp only [applyAction]
    split
    · exact runStep5_fst_slides_approved env st
    · rfl
  | regenerateSlides =>
    left
    simp only [applyAction]
    split
    · split <;> rfl
    · rfl
  | submitSetup ti su gr du ob co rd =>
    left; simp only [applyAction]; split <;> rfl
  | backToSetup => left; simp only [applyAction]; split <;> rfl
  | reResearch r => left; simp only [applyAction]; split <;> rfl
  | newFacts => left; simp only [applyAction]; split <;> rfl
  | createOutline => left; simp only [applyAction]; split <;> rfl
  | backToAnalysis => left; simp only [applyAction]; split <;> rfl
  | backToReview => left; simp only [applyAction]; split <;> rfl
  | selectTheme k => left; simp only [applyAction]; split <;> rfl
  | generateMaterials => left; simp only [applyAction]; split <;> rfl

/-! ## C1: the generation step is unreachable while the approval flag is false -/

/-- C1: whenever `slides_approved` is false the step-5 handler returns before
creating anything — the session state is unchanged (no DeckArtifact stored, no
NarrationAsset collected) and no deck or narration event is emitted (app.py
lines 1750-1752); and the only action that can turn the flag from false to
true is the explicit "Approve & Style" action of step 3 (line 1696). -/
theorem C1_approval_gate :
    (∀ (env : Env) (st : SessionState), st.slides_approved = false →
      runStep5 env st = (st, [])) ∧
    (∀ (env : Env) (st : SessionState) (a : WizardAction),
      (applyAction env st a).slides_approved = true →
      st.slides_approved = true ∨ a = WizardAction.approveAndStyle) := by
  constructor
  · intro env st h
    unfold runStep5
    rw [h]
    rfl
  · intro env st a h
    rcases applyAction_slides_approved_cases env st a with hpres | hap | hnew
    · rw [hpres] at h
      exact Or.inl h
    · exact Or.inr hap
    · subst hnew
      revert h
      simp only [applyAction]
      split
      · intro h
        exact absurd h (by simp [initState])
      · intro h
        exact Or.inl h

/-- Witness for C1 at concrete inputs: an unapproved step-5 session is left
untouched with an empty event trace, and an action other than "Approve &
Style" (here "Back to Review") cannot have produced a true flag from a false
one. -/
theorem C1_approval_gate_witness :
    runStep5 envFail { initState with current_step := 5 } =
      ({ initState with current_step := 5 }, []) ∧
    ({ initState with current_step := 3 }.slides_approved = true ∨
      WizardAction.approveAndStyle = WizardAction.approveAndStyle) :=
  ⟨C1_approval_gate.1 envFail { initState with current_step := 5 } rfl,
   C1_approval_gate.2 envFail { initState with current_step := 3 }
     WizardAction.approveAndStyle rfl⟩

/-! ## C10: approval is sticky across back-navigation and regeneration -/

theorem runStep5_fst_current_step (env : Env) (st : SessionState) :
    (runStep5 env st).1.current_step = st.current_step ∨
    (runStep5 env st).1.current_step = 6 := by
  unfold runStep5
  split
  · left; rfl
  · split
    · left; rfl
    · split
      · left; rfl
      · split
        · dsimp only
          split
          · left; rfl
          · right; rfl
        · left; rfl

/-- The only transition whose result sits at step 4 (theme selection) from a
state that was not already there is the explicit "Approve & Style" press
(app.py lines 1695-1698). -/
theorem applyAction_enters_step4 (env : Env) (st : SessionState)
    (a : WizardAction) (h : (applyAction env st a).current_step = 4) :
    st.current_step = 4 ∨ a = WizardAction.approveAndStyle := by
  cases a with
  | approveAndStyle => exact Or.inr rfl
  | runGeneration =>
    left
    revert h
    simp only [applyAction]
    split
    · intro h
      rcases runStep5_fst_current_step env st with h5 | h5 <;> rw [h] at h5 <;>
        omega
    · exact fun h => h
  | createNewLesson =>
    left
    revert h
    simp only [applyAction]
    split
    · intro h
      simp [initState] at h
    · exact fun h => h
  | regenerateSlides =>
    left
    revert h
    simp only [applyAction]
    split
    · split <;> exact fun h => h
    · exact fun h => h
  | submitSetup ti su gr du ob co rd =>
    left; revert h; simp only [applyAction]; split
    · intro h; simp at h
    · exact fun h => h
  | backToSetup =>
    left; revert h; simp only [applyAction]; split
    · intro h; simp at h
    · exact fun h => h
  | reResearch r =>
    left; revert h; simp only [applyAction]; split <;> exact fun h => h
  | newFacts =>
    left; revert h; simp only [applyAction]; split <;> exact fun h => h
  | createOutline =>
    left; revert h; simp only [applyAction]; split
    · intro h; simp at h
    · exact fun h => h
  | backToAnalysis =>
    left; revert h; simp only [applyAction]; split
    · intro h; simp at h
    · exact fun h => h
  | backToReview =>
    left; revert h; simp only [applyAction]; split
    · intro h; simp at h
    · exact fun h => h
  | selectTheme k =>
    left; revert h; simp only [applyAction]; split <;> exact fun h => h
  | generateMaterials =>
    left; revert h; simp only [applyAction]; split
    · intro h; simp at h
    · exact fun h => h

/-- Any action other than "Approve & Style" keeps a session that sits in the
pre-approval stages (steps 1-3) inside them. -/
theorem applyAction_step_le_three (env : Env) (st : SessionState)
    (a : WizardAction) (hne : a ≠ WizardAction.approveAndStyle)
    (h : st.current_step ≤ 3) : (applyAction env st a).current_step ≤ 3 := by
  cases a with
  | approveAndStyle => exact absurd rfl hne
  | runGeneration =>
    simp only [applyAction]
    split
    · omega
    · exact h
  | createNewLesson =>
    simp only [applyAction]
    split
    · simp [initState]
    · exact h
  | regenerateSlides =>
    simp only [applyAction]
    split
    · split <;> exact h
    · exact h
  | submitSetup ti su gr du ob co rd =>
    simp only [applyAction]; split
    · simp
    · exact h
  | backToSetup =>
    simp only [applyAction]; split
    · simp
    · exact h
  | reResearch r => simp only [applyAction]; split <;> exact h
  | newFacts => simp only [applyAction]; split <;> exact h
  | createOutline =>
    simp only [applyAction]; split
    · simp
    · exact h
  | backToAnalysis =>
    simp only [applyAction]; split
    · simp
    · exact h
  | backToReview =>
    simp only [applyAction]
    split
    · omega
    · exact h
  | selectTheme k => simp only [applyAction]; split <;> exact h
  | generateMaterials =>
    simp only [applyAction]
    split
    · omega
    · exact h

/-- The sessions reachable from `s` through wizard actions none of which is
the explicit "Approve & Style" press. -/
inductive ReachableWithoutApprove (env : Env) : SessionState → SessionState → Prop where
  | refl (s : SessionState) : ReachableWithoutApprove env s s
  | step {s t : SessionState} (a : WizardAction)
      (hne : a ≠ WizardAction.approveAndStyle)
      (h : ReachableWithoutApprove env s t) :
      ReachableWithoutApprove env s (applyAction env t a)

theorem reachableWithoutApprove_step_le (env : Env) {s t : SessionState}
    (h : ReachableWithoutApprove env s t) (hs : s.current_step ≤ 3) :
    t.current_step ≤ 3 := by
  induction h with
  | refl => exact hs
  | step a hne _ ih => exact applyAction_step_le_three env _ a hne ih

/-- The concrete session used to settle C10: a step-3 review session with an
outline and old slides, taken through Approve & Style, Back to Review and
Regenerate Slides under the all-failing environment. -/
def c10regen : SessionState :=
  applyAction envFail
    (applyAction envFail
      (applyAction envFail
        { initState with
          current_step := 3
          include_pauses := false
          lesson := { initLesson with
                      outline := some "An outline"
                      slides := some (JValue.str "old slides") } }
        .approveAndStyle)
      .backToReview)
    .regenerateSlides

/-- Counterexample to C10: after approval, back-navigation and regeneration
the session does hold a regenerated sequence at step 3 with the flag still
true — but, contrary to the claim's conclusion, it cannot reach theme
selection (step 4) or deck/audio generation (step 5) without a further
approval action: no sequence of wizard actions avoiding the explicit
"Approve & Style" press brings it to those steps, because that press is the
only transition into step 4 (app.py lines 1695-1698). -/
theorem C10_reapproval_counterexample :
    c10regen.slides_approved = true ∧
    c10regen.current_step = 3 ∧
    c10regen.lesson.slides = some (JValue.arr (get_enhanced_fallback_slides 8)) ∧
    ¬ ∃ st', ReachableWithoutApprove envFail c10regen st' ∧
        (st'.current_step = 4 ∨ st'.current_step = 5) := by
  refine ⟨rfl, rfl, rfl, ?_⟩
  rintro ⟨st', hreach, hst⟩
  have h0 : c10regen.current_step ≤ 3 := by
    have he : c10regen.current_step = 3 := rfl
    omega
  have h3 : st'.current_step ≤ 3 := reachableWithoutApprove_step_le envFail hreach h0
  omega

/-- C10 as amended: once `slides_approved` is true, no transition other than
the start-over reset ("Create New Lesson", app.py lines 2048-2055) makes it
false again; after approving at step 3, going back from theme selection to
review and regenerating, the session holds a freshly generated slide sequence
(here the fallback sequence, since the env's API fails) that was never itself
approved, yet the flag is still true, the step-4 and step-5 approval guards
(lines 1705 and 1750) — the program's only approval checks — pass with no
further action, and the step-5 handler, once entered, assembles the deck and
attempts narration for every regenerated slide; however, the only transition
into theme selection from elsewhere is another explicit "Approve & Style"
press, so reaching step 4 or 5 does involve a further approval action (one
whose gate is already open). -/
theorem C10_approval_never_rearmed :
    (∀ (env : Env) (st : SessionState) (a : WizardAction),
      st.slides_approved = true → a ≠ WizardAction.createNewLesson →
      (applyAction env st a).slides_approved = true) ∧
    (∀ (env : Env) (st : SessionState) (a : WizardAction),
      (applyAction env st a).current_step = 4 →
      st.current_step = 4 ∨ a = WizardAction.approveAndStyle) ∧
    (∀ s0 : JValue,
      let st3 : SessionState :=
        { initState with
          current_step := 3
          include_pauses := false
          lesson := { initLesson with
                      outline := some "An outline"
                      slides := some s0 } }
      let stR := applyAction envFail
        (applyAction envFail (applyAction envFail st3 .approveAndStyle)
          .backToReview) .regenerateSlides
      stR.slides_approved = true ∧
      stR.current_step = 3 ∧
      stR.lesson.slides = some (JValue.arr (get_enhanced_fallback_slides 8)) ∧
      step4GuardPasses stR = true ∧
      step5GuardPasses stR = true ∧
      (runStep5 envFail stR).1.current_step = 6 ∧
      (runStep5 envFail stR).1.pptx_buffer.isSome = true ∧
      (runStep5 envFail stR).2 =
        Step5Event.deckAttempt ::
          (List.range 8).map Step5Event.narrationCall) := by
  refine ⟨?_, applyAction_enters_step4, ?_⟩
  · intro env st a h hne
    rcases applyAction_slides_approved_cases env st a with hpres | hap | hnew
    · rw [hpres]; exact h
    · subst hap
      revert h
      simp only [applyAction]
      split
      · intro _; rfl
      · intro h; exact h
    · exact absurd hnew hne
  · intro s0
    exact ⟨rfl, rfl, rfl, rfl, rfl, rfl, rfl, rfl⟩

/-- Witness for C10's amended statement: the persistence half applied at a
concrete approved session with the concrete "Back to Review" action, and the
step-4-entry half applied at the concrete "Approve & Style" press from a
step-3 session. -/
theorem C10_approval_never_rearmed_witness :
    (applyAction envFail
      { initState with current_step := 4, slides_approved := true }
      WizardAction.backToReview).slides_approved = true ∧
    ({ initState with current_step := 3 }.current_step = 4 ∨
      WizardAction.approveAndStyle = WizardAction.approveAndStyle) :=
  ⟨C10_approval_never_rearmed.1 envFail
      { initState with current_step := 4, slides_approved := true }
      WizardAction.backToReview rfl (by decide),
   C10_approval_never_rearmed.2.1 envFail { initState with current_step := 3 }
      WizardAction.approveAndStyle rfl⟩

/-! ## C2: the fallback slide sequence -/

theorem fallback_slides_length (count : Nat) :
    (get_enhanced_fallback_slides count).length = count := by
  unfold get_enhanced_fallback_slides
  rw [List.length_take, List.length_append, List.length_map, List.length_range']
  simp
  omega

theorem fallback_slides_wellformed (count : Nat) :
    ∀ v ∈ get_enhanced_fallback_slides count, specWellFormedSlide v = true := by
  intro v hv
  have hv' := List.take_subset _ _ hv
  rcases List.mem_append.mp hv' with h | h
  · simp only [List.mem_cons, List.mem_singleton, List.not_mem_nil, or_false] at h
    rcases h with h | h <;> subst h <;> rfl
  · rcases List.mem_map.mp h with ⟨i, _, rfl⟩
    rfl

/-- Counterexample to C2: with the application's default slide count 8
(the slide_count advanced feature, default 8; app.py lines 1584 and 1680, and
the parameter default at line 671), a failing generation call returns the
fallback sequence of 8 slides — not a sequence of "between 3 and 6" items as
claimed. -/
theorem C2_fallback_counterexample :
    generate_enhanced_slide_content (fun _ => ApiOutcome.failure) (fun _ => none)
      "An outline" "Objectives" none 8
      = JValue.arr (get_enhanced_fallback_slides 8) ∧
    (get_enhanced_fallback_slides 8).length = 8 ∧
    ¬(3 ≤ (get_enhanced_fallback_slides 8).length ∧
      (get_enhanced_fallback_slides 8).length ≤ 6) := by
  refine ⟨rfl, rfl, ?_⟩
  intro h
  have := h.2
  simp [fallback_slides_length] at this

/-- C2 as amended: a slide-generation call in which the model call raises or
the response fails to parse returns the hardcoded fallback sequence (never
propagating the error), and that sequence has exactly `slide_count` items
(default 8; the UI slider offers 4-15), each carrying all five required
SlideRecord fields with well-formed shapes; the wizard therefore still reaches
the slide-review step (step 3) with a stored slide sequence. -/
theorem C2_fallback_amended (api : String → ApiOutcome)
    (loads : String → Option JValue) (outline objectives : String)
    (rd : Option String) (count : Nat) :
    (api (slidesPrompt outline objectives rd count) = ApiOutcome.failure →
      generate_enhanced_slide_content api loads outline objectives rd count
        = JValue.arr (get_enhanced_fallback_slides count)) ∧
    (∀ text, api (slidesPrompt outline objectives rd count) = ApiOutcome.success text →
      loads (stripMarkdown (pyStrip text)) = none →
      generate_enhanced_slide_content api loads outline objectives rd count
        = JValue.arr (get_enhanced_fallback_slides count)) ∧
    (get_enhanced_fallback_slides count).length = count ∧
    (∀ v ∈ get_enhanced_fallback_slides count, specWellFormedSlide v = true) ∧
    (∀ (env : Env) (st : SessionState), st.current_step = 2 →
      (applyAction env st .createOutline).current_step = 3 ∧
      (applyAction env st .createOutline).lesson.slides =
        some (generate_enhanced_slide_content env.api env.loads
          (create_advanced_lesson_outline env.api st.lesson.objectives
            st.lesson.content st.lesson.facts st.lesson.research_data)
          st.lesson.objectives st.lesson.research_data st.slide_count)) := by
  refine ⟨?_, ?_, fallback_slides_length count, fallback_slides_wellformed count, ?_⟩
  · intro h
    simp [generate_enhanced_slide_content, h]
  · intro text hs hl
    simp [generate_enhanced_slide_content, hs, hl]
  · intro env st hstep
    constructor <;> simp [applyAction, hstep]

/-- Witness for C2's amended statement: the all-failing environment at the
default slide count, and a concrete step-2 session advancing to review. -/
theorem C2_fallback_amended_witness :
    generate_enhanced_slide_content (fun _ => ApiOutcome.failure) (fun _ => none)
      "An outline" "Objectives" none 8
      = JValue.arr (get_enhanced_fallback_slides 8) ∧
    (get_enhanced_fallback_slides 8).length = 8 ∧
    specWellFormedSlide fallbackSlide1 = true ∧
    (applyAction envFail { initState with current_step := 2 }
      .createOutline).current_step = 3 :=
  ⟨(C2_fallback_amended (fun _ => ApiOutcome.failure) (fun _ => none)
      "An outline" "Objectives" none 8).1 rfl,
   (C2_fallback_amended (fun _ => ApiOutcome.failure) (fun _ => none)
      "An outline" "Objectives" none 8).2.2.1,
   (C2_fallback_amended (fun _ => ApiOutcome.failure) (fun _ => none)
      "An outline" "Objectives" none 8).2.2.2.1 fallbackSlide1
      (List.mem_cons_self _ _),
   ((C2_fallback_amended (fun _ => ApiOutcome.failure) (fun _ => none)
      "An outline" "Objectives" none 8).2.2.2.2 envFail
      { initState with current_step := 2 } rfl).1⟩

/-! ## C3: response stripping, parsing and (absent) validation -/

theorem pyEndsWith_empty (s : String) : pyEndsWith s "" = true := by
  simp [pyEndsWith, List.isSuffixOf]

/-- The environment used to refute C3: the LLM answers `"[1, 2]xyz"` and the
JSON parser behaves as `json.loads` does on the stripped remainder
(`"[1, 2]"` parses to the list `[1, 2]`; everything else is irrelevant). -/
def envC3 : Env :=
  ⟨fun _ => ApiOutcome.success "[1, 2]xyz",
   fun s => if s == "[1, 2]" then some (JValue.arr [JValue.num 1, JValue.num 2])
            else none,
   fun _ => TtsOutcome.exn⟩

/-- Counterexample to C3: (a) completing step 2 against `envC3` stores the
parsed list `[1, 2]` — whose members carry none of the five required fields —
directly in the session's slide sequence: a malformed slide list is accepted
wholesale, with no validation; (b) a response actually wrapped in a markdown
code fence is not unwrapped: the leading "```json" survives (only the last 3
characters are dropped), so the fence stripping the claim describes does not
happen. -/
theorem C3_no_validation_counterexample :
    (applyAction envC3 { initState with current_step := 2 }
        .createOutline).lesson.slides =
      some (JValue.arr [JValue.num 1, JValue.num 2]) ∧
    specSlideFieldsOk (JValue.num 1) = false ∧
    stripMarkdown (pyStrip "```json\n[1]\n```") ≠ "[1]" := by
  refine ⟨rfl, rfl, ?_⟩
  decide

/-- C3 as amended: the operation drops the first 7 characters exactly when the
stripped response text starts with the four characters `"json"` (not with a
code fence), then unconditionally drops the last 3 characters
(`content.endswith("")` is true of every string); it parses the remainder as
JSON; a parse failure yields the complete fallback sequence, but a parse
success is returned unchanged — no field validation is performed, so a parsed
list containing malformed slide objects reaches the session state in full. -/
theorem C3_strip_parse_amended (api : String → ApiOutcome)
    (loads : String → Option JValue) (outline objectives : String)
    (rd : Option String) (count : Nat) (text : String)
    (hapi : api (slidesPrompt outline objectives rd count) = ApiOutcome.success text) :
    (loads (stripMarkdown (pyStrip text)) = none →
      generate_enhanced_slide_content api loads outline objectives rd count
        = JValue.arr (get_enhanced_fallback_slides count)) ∧
    (∀ v, loads (stripMarkdown (pyStrip text)) = some v →
      generate_enhanced_slide_content api loads outline objectives rd count = v) ∧
    (pyStartsWith (pyStrip text) "json" = false →
      stripMarkdown (pyStrip text) = pyDropLast (pyStrip text) 3) ∧
    (pyStartsWith (pyStrip text) "json" = true →
      stripMarkdown (pyStrip text) = pyDropLast (pyDropFirst (pyStrip text) 7) 3) := by
  refine ⟨?_, ?_, ?_, ?_⟩
  · intro h
    simp [generate_enhanced_slide_content, hapi, h]
  · intro v h
    simp [generate_enhanced_slide_content, hapi, h]
  · intro h
    simp [stripMarkdown, h, pyEndsWith_empty]
  · intro h
    simp [stripMarkdown, h, pyEndsWith_empty]

/-- Witness for C3's amended statement: the `envC3` response `"[1, 2]xyz"`
does not start with "json", is stripped to `"[1, 2]"`, and its parse result is
returned unvalidated. -/
theorem C3_strip_parse_amended_witness :
    generate_enhanced_slide_content envC3.api envC3.loads "An outline"
      "Objectives" none 8 = JValue.arr [JValue.num 1, JValue.num 2] ∧
    stripMarkdown (pyStrip "[1, 2]xyz") = pyDropLast (pyStrip "[1, 2]xyz") 3 :=
  ⟨(C3_strip_parse_amended envC3.api envC3.loads "An outline" "Objectives"
      none 8 "[1, 2]xyz" rfl).2.1 (JValue.arr [JValue.num 1, JValue.num 2]) rfl,
   (C3_strip_parse_amended envC3.api envC3.loads "An outline" "Objectives"
      none 8 "[1, 2]xyz" rfl).2.2.1 rfl⟩

/-! ## C4: Deck Assembler output shape -/

/-- On an all-dict list the slide loop completes with one slide per record. -/
theorem addSlides_all_obj (l : List JValue)
    (h : ∀ v ∈ l, isObjRecord v = true) :
    ∃ slides, addSlides l = some slides ∧ slides.length = l.length := by
  induction l with
  | nil => exact ⟨[], rfl, rfl⟩
  | cons x xs ih =>
    obtain ⟨tail, htail, hlen⟩ := ih (fun v hv => h v (List.mem_cons_of_mem x hv))
    have hx := h x (List.mem_cons_self x xs)
    match x, hx with
    | .obj kvs, _ =>
      exact ⟨fillSlide kvs :: tail, by simp [addSlides, htail], by simp [hlen]⟩
    | .str s, hx => exact Bool.noConfusion hx
    | .num n, hx => exact Bool.noConfusion hx
    | .bool b, hx => exact Bool.noConfusion hx
    | .null, hx => exact Bool.noConfusion hx
    | .arr a, hx => exact Bool.noConfusion hx

/-- A list containing any non-dict record aborts the slide loop: the warning
in the per-slide handler re-raises on the non-dict. -/
theorem addSlides_eq_none (l : List JValue)
    (h : l.all (fun v => isObjRecord v) = false) : addSlides l = none := by
  induction l with
  | nil => simp at h
  | cons x xs ih =>
    cases x with
    | obj kvs =>
      have hxs : xs.all (fun v => isObjRecord v) = false := by
        simpa [isObjRecord] using h
      simp [addSlides, ih hxs]
    | str s => rfl
    | num n => rfl
    | bool b => rfl
    | null => rfl
    | arr a => rfl

/-- A fully well-formed SlideRecord dictionary. -/
def c4good : JValue :=
  JValue.obj [("slide_number", JValue.num 1),
              ("title", JValue.str "Renewable Energy"),
              ("content", JValue.arr [JValue.str "Point 1", JValue.str "Point 2",
                                      JValue.str "Point 3"]),
              ("speaker_notes", JValue.str "Detailed notes."),
              ("image_description", JValue.str "A wind farm"),
              ("layout_style", JValue.str "content_image")]

/-- Counterexample to C4: for N = 1 well-formed record and K = 0 malformed
ones, the artifact contains exactly 1 slide, not the claimed N−K content
slides plus 1 title slide (= 2): `create_sophisticated_powerpoint` never uses
its `lesson_title` parameter and adds no separate title slide (app.py lines
858-926). -/
theorem C4_deck_counterexample :
    specWellFormedSlide c4good = true ∧
    (create_sophisticated_powerpoint (JValue.arr [c4good]) "My Lesson"
        "minimalist").map (fun d => d.slides.length) = some 1 ∧
    (1 : Nat) ≠ 1 - 0 + 1 := by
  exact ⟨rfl, rfl, by decide⟩

/-- C4 as amended: given a non-empty list in which every record is
dict-shaped, the Deck Assembler returns a non-null artifact containing exactly
one slide per record — a dict record always contributes one slide even if
filling it fails midway — and no additional title slide derived from the
lesson title; it returns no artifact when the input is empty, not list-shaped,
or contains any non-dict record (the per-slide handler's warning calls `.get`
on the non-dict and re-raises, so the whole call resolves to None at line
924). -/
theorem C4_deck_amended :
    (∀ (l : List JValue) (title theme : String), l ≠ [] →
      (∀ v ∈ l, isObjRecord v = true) →
      ∃ d, create_sophisticated_powerpoint (JValue.arr l) title theme = some d ∧
        d.slides.length = l.length) ∧
    (∀ (l : List JValue) (title theme : String),
      l.all (fun v => isObjRecord v) = false →
      create_sophisticated_powerpoint (JValue.arr l) title theme = none) ∧
    (∀ title theme, create_sophisticated_powerpoint (JValue.arr []) title theme
      = none) ∧
    (∀ (v : JValue) (title theme : String), isListShaped v = false →
      create_sophisticated_powerpoint v title theme = none) := by
  refine ⟨?_, ?_, fun _ _ => rfl, ?_⟩
  · intro l title theme hne hobj
    obtain ⟨slides, hadd, hlen⟩ := addSlides_all_obj l hobj
    match l, hne with
    | x :: xs, _ =>
      refine ⟨⟨slides⟩, ?_, hlen⟩
      simp only [create_sophisticated_powerpoint, hadd]
  · intro l title theme hl
    match l with
    | [] => simp at hl
    | x :: xs =>
      simp only [create_sophisticated_powerpoint, addSlides_eq_none (x :: xs) hl]
  · intro v title theme hv
    cases v <;> first | rfl | simp [isListShaped] at hv

/-- Witness for C4's amended statement: a single well-formed record produces a
one-slide deck; adding a non-dict record makes the whole call return no
artifact, as do the empty list and a non-list input. -/
theorem C4_deck_amended_witness :
    (∃ d, create_sophisticated_powerpoint (JValue.arr [c4good]) "T" "minimalist"
        = some d ∧ d.slides.length = 1) ∧
    create_sophisticated_powerpoint (JValue.arr [c4good, JValue.str "bad"]) "T"
      "minimalist" = none ∧
    create_sophisticated_powerpoint (JValue.arr []) "T" "minimalist" = none ∧
    create_sophisticated_powerpoint (JValue.str "nope") "T" "minimalist" = none := by
  refine ⟨?_,
    C4_deck_amended.2.1 [c4good, JValue.str "bad"] "T" "minimalist" rfl,
    C4_deck_amended.2.2.1 "T" "minimalist",
    C4_deck_amended.2.2.2 (JValue.str "nope") "T" "minimalist" rfl⟩
  obtain ⟨d, hd, hlen⟩ := C4_deck_amended.1 [c4good] "T" "minimalist" (by simp)
    (by
      intro v hv
      simp only [List.mem_singleton] at hv
      subst hv
      rfl)
  exact ⟨d, hd, hlen⟩

/-! ## C5: deck before narration; per-slide narration failures are isolated -/

/-- A well-behaved slide is in particular dict-shaped. -/
theorem isObjRecord_of_wellBehaved (v : JValue)
    (h : wellBehavedSlide v = true) : isObjRecord v = true := by
  cases v <;> first | rfl | simp [wellBehavedSlide] at h

/-- Over well-behaved slides the narration loop submits every index in order,
regardless of the speech endpoint's outcomes, and terminates without an
uncaught exception. -/
theorem step5Loop_wellBehaved (tts : TtsRequest → TtsOutcome) (p : Bool)
    (stab sim : ℚ) :
    ∀ (l : List JValue) (i : Nat), (∀ v ∈ l, wellBehavedSlide v = true) →
      (step5Loop tts p stab sim l i).1 = List.range' i l.length ∧
      ∃ files, (step5Loop tts p stab sim l i).2 = some files := by
  intro l
  induction l with
  | nil => exact fun i _ => ⟨rfl, [], rfl⟩
  | cons x xs ih =>
    intro i hwb
    have hx := hwb x (List.mem_cons_self x xs)
    have hxs : ∀ v ∈ xs, wellBehavedSlide v = true :=
      fun v hv => hwb v (List.mem_cons_of_mem x hv)
    obtain ⟨hev, files, hfl⟩ := ih (i + 1) hxs
    cases x with
    | obj kvs =>
      simp only [wellBehavedSlide, Bool.and_eq_true] at hx
      obtain ⟨h1, h2⟩ := hx
      rcases ht : List.lookup "title" kvs with _ | vt <;> rw [ht] at h1
      · simp at h1
      · cases vt <;> simp at h1
        case str t =>
        have hprep : ∃ notes, preparedSpeakerNotes p i kvs = some notes := by
          rcases hs : List.lookup "speaker_notes" kvs with _ | vs <;>
            rw [preparedSpeakerNotes, hs]
          · exact ⟨_, rfl⟩
          · cases vs <;> rw [hs] at h2 <;> simp at h2
            case str s => exact ⟨_, rfl⟩
        obtain ⟨notes, hnotes⟩ := hprep
        simp only [step5Loop, ht, hnotes, hev, hfl]
        refine ⟨by rw [List.length_cons, List.range'_succ], ?_⟩
        rcases generate_enhanced_audio tts notes "21m00Tcm4TlvDq8ikWAM" stab sim
          with _ | b
        · exact ⟨files, rfl⟩
        · by_cases hb : b.isEmpty
          · simp [hb]
          · rcases hfn : audioFileName i kvs with _ | name <;> simp [hb, hfn]
    | str s => simp [wellBehavedSlide] at hx
    | num n => simp [wellBehavedSlide] at hx
    | bool b => simp [wellBehavedSlide] at hx
    | null => simp [wellBehavedSlide] at hx
    | arr l => simp [wellBehavedSlide] at hx

/-- C5: in an approved session holding a non-empty list of well-behaved slide
records, the step-5 handler first completes deck assembly (the deck attempt is
the head of the event trace and its product is stored), and only then issues
one narration call per slide, every index in order — for an arbitrary speech
endpoint behaviour, so a narration failure at any slide (non-2xx or exception
yields `None`, app.py lines 949-958) never suppresses the call for the next
slide and never blocks delivery of the deck: the handler still stores the deck
and advances to step 6. -/
theorem C5_deck_then_narration (env : Env) (st : SessionState) (l : List JValue)
    (hap : st.slides_approved = true)
    (hsl : st.lesson.slides = some (JValue.arr l))
    (hne : l ≠ [])
    (hwb : ∀ v ∈ l, wellBehavedSlide v = true) :
    ∃ d, create_sophisticated_powerpoint (JValue.arr l) st.lesson.title
        st.selected_theme = some d ∧
      (runStep5 env st).1.pptx_buffer = some d ∧
      (runStep5 env st).1.current_step = 6 ∧
      (runStep5 env st).2 = Step5Event.deckAttempt ::
        (List.range l.length).map Step5Event.narrationCall := by
  match l, hne with
  | x :: xs, _ =>
    obtain ⟨hev, files, hfl⟩ := step5Loop_wellBehaved env.tts st.include_pauses
      (voiceSettings st.voice_style).1 (voiceSettings st.voice_style).2
      (x :: xs) 0 hwb
    obtain ⟨slides, hadd, hslen⟩ := addSlides_all_obj (x :: xs)
      (fun v hv => isObjRecord_of_wellBehaved v (hwb v hv))
    have hcp : create_sophisticated_powerpoint (JValue.arr (x :: xs))
        st.lesson.title st.selected_theme = some ⟨slides⟩ := by
      simp only [create_sophisticated_powerpoint, hadd]
    refine ⟨⟨slides⟩, hcp, ?_⟩
    simp only [runStep5, hap, hsl, Bool.true_eq_false, if_false, hcp, hfl, hev]
    exact ⟨trivial, trivial, by rw [List.range_eq_range']⟩

/-- Witness for C5: two well-behaved slides against an endpoint that fails for
the first slide's notes and succeeds for the second — the trace still contains
the deck attempt first and both narration calls, the deck is delivered, the
step advances, and exactly the second slide's audio is collected. -/
theorem C5_deck_then_narration_witness :
    let slideA : JValue :=
      JValue.obj [("title", JValue.str "A"), ("speaker_notes", JValue.str "Notes A")]
    let slideB : JValue :=
      JValue.obj [("title", JValue.str "B"), ("speaker_notes", JValue.str "Notes B")]
    let env : Env :=
      ⟨fun _ => ApiOutcome.failure, fun _ => none,
       fun r => if r.text == "Notes A" then TtsOutcome.httpError 500
                else TtsOutcome.ok [1, 2, 3]⟩
    let st : SessionState :=
      { initState with
        current_step := 5
        slides_approved := true
        include_pauses := false
        lesson := { initLesson with
                    title := "T"
                    slides := some (JValue.arr [slideA, slideB]) } }
    (runStep5 env st).2 = [Step5Event.deckAttempt, Step5Event.narrationCall 0,
      Step5Event.narrationCall 1] ∧
    (runStep5 env st).1.current_step = 6 ∧
    (runStep5 env st).1.pptx_buffer.isSome = true ∧
    (runStep5 env st).1.audio_files.length = 1 := by
  intro slideA slideB env st
  obtain ⟨d, hc, hp, h6, hev⟩ := C5_deck_then_narration env st [slideA, slideB]
    rfl rfl (by simp)
    (by
      intro v hv
      simp only [List.mem_cons, List.not_mem_nil, or_false] at hv
      rcases hv with rfl | rfl <;> rfl)
  refine ⟨by rw [hev]; rfl, h6, by rw [hp]; rfl, by rfl⟩

/-! ## C6: the Narration Client does not truncate its input -/

/-- A speech endpoint that echoes the submitted text back as "audio" bytes,
exposing exactly what was submitted. -/
def ttsEcho : TtsRequest → TtsOutcome :=
  fun r => TtsOutcome.ok (r.text.data.map Char.toNat)

/-- A 600-character narration text. -/
def c6text : String := String.mk (List.replicate 600 'a')

set_option maxRecDepth 8192 in
/-- Counterexample to C6: a 600-character text — beyond the claimed ~500-char
bound — is submitted to the endpoint verbatim (the echoing endpoint returns
all 600 characters), and the submitted text is not the truncated-with-ellipsis
form the claim describes: `generate_enhanced_audio` (app.py lines 928-958)
contains no truncation at all. -/
theorem C6_no_truncation_counterexample :
    c6text.length = 600 ∧
    generate_enhanced_audio ttsEcho c6text "21m00Tcm4TlvDq8ikWAM" 0.5 0.5
      = some (c6text.data.map Char.toNat) ∧
    c6text ≠ pySlice c6text 500 ++ "..." := by
  refine ⟨?_, rfl, by decide⟩
  have h : c6text.length = (List.replicate 600 'a').length := rfl
  rw [h, List.length_replicate]

/-- C6 as amended: the Narration Client places the input text in the request
payload unmodified, at every length — no truncation and no ellipsis marker —
so the synthesis endpoint receives the full text. -/
theorem C6_verbatim_submission_amended (text voice_id : String)
    (stability similarity : ℚ) :
    (buildTtsRequest text voice_id stability similarity).text = text ∧
    (buildTtsRequest text voice_id stability similarity).url
      = "https://api.elevenlabs.io/v1/text-to-speech/" ++ voice_id ∧
    generate_enhanced_audio ttsEcho text voice_id stability similarity
      = some (text.data.map Char.toNat) :=
  ⟨rfl, rfl, rfl⟩

/-! ## C7: prompt truncation bounds of the Content Client -/

theorem sdata_append (a b : String) : (a ++ b).data = a.data ++ b.data := by
  cases a; cases b; rfl

/-- A 2000-character facts/outline string, longer than every bound the claim
names for those inputs. -/
def c7big : String := String.mk (List.replicate 2000 'f')

set_option maxRecDepth 40000 in
/-- Counterexample to C7: the outline call does not truncate the prior facts
to ~800 characters (app.py line 640 interpolates `facts` whole), and the
slides call does not truncate the outline to ~1000 characters (line 680
interpolates `outline` whole) — the prompts differ from what they would be
under the claimed truncation. -/
theorem C7_truncation_counterexample :
    outlinePrompt "O" "C" c7big none
      ≠ outlinePrompt "O" "C" (pySlice c7big 800) none ∧
    slidesPrompt c7big "O" none 8
      ≠ slidesPrompt (pySlice c7big 1000) "O" none 8 := by
  constructor <;> decide

set_option maxRecDepth 8192 in
/-- C7 as amended: all truncation that does occur is prefix-based, but only
part of the claimed bounds exists: the facts call interpolates the first 2000
characters of the source text (and first 1000 of the research text); the
outline call interpolates the first 1500 characters of the source text but the
prior facts string in full; the slides call interpolates the outline and the
objectives in full. -/
theorem C7_truncation_amended (topic objectives outline facts : String)
    (content : String) (rd : Option String) (count : Nat) :
    (∀ c : String, factsPrompt topic c rd = factsPrompt topic (pySlice c 2000) rd) ∧
    (∀ c : String, outlinePrompt objectives c facts rd
      = outlinePrompt objectives (pySlice c 1500) facts rd) ∧
    facts.data <:+: (outlinePrompt objectives content facts rd).data ∧
    outline.data <:+: (slidesPrompt outline objectives rd count).data ∧
    objectives.data <:+: (slidesPrompt outline objectives rd count).data := by
  refine ⟨?_, ?_, ?_, ?_, ?_⟩
  · intro c
    simp [factsPrompt, pySlice, List.take_take]
  · intro c
    simp [outlinePrompt, pySlice, List.take_take]
  · refine ⟨("Create a sophisticated, research-driven lesson outline:\n\nLearning Objectives: "
        ++ objectives ++ "\nContent Material: " ++ pySlice content 1500
        ++ "\nInteresting Facts: ").data,
      ("\n" ++ outline_research_context rd
        ++ "\n\nStructure the lesson with:\n1. **Hook/Introduction** (5-8 minutes) - Engaging opener\n2. **Historical Foundation** (10-15 minutes) - Background and context\n3. **Core Concepts** (15-20 minutes) - Main content with examples\n4. **Modern Relevance** (8-12 minutes) - Current applications\n5. **Interactive Exploration** (10-15 minutes) - Activities and discussion\n6. **Synthesis & Reflection** (5-10 minutes) - Wrap-up and assessment\n\nFor each section, include:\n- Key talking points\n- Suggested activities or interactions\n- Visual aids needed\n- Transition strategies\n- Assessment opportunities\n\nMake this outline comprehensive and engaging for modern learners.").data,
      ?_⟩
    simp [outlinePrompt, sdata_append, List.append_assoc]
  · refine ⟨("Create content for " ++ toString count
        ++ " sophisticated presentation slides:\n\nLesson Outline: ").data,
      ("\nObjectives: " ++ objectives ++ "\n" ++ slides_research_context rd
        ++ slidesPromptTail).data, ?_⟩
    simp [slidesPrompt, slidesPromptTail, sdata_append, List.append_assoc]
  · refine ⟨("Create content for " ++ toString count
        ++ " sophisticated presentation slides:\n\nLesson Outline: " ++ outline
        ++ "\nObjectives: ").data,
      ("\n" ++ slides_research_context rd ++ slidesPromptTail).data, ?_⟩
    simp [slidesPrompt, slidesPromptTail, sdata_append, List.append_assoc]

end LessonsBuilder
